import Mathlib

/-!
Shallow embedding of the repository `Maksik1935/Python2`:

* `src/Account.py` — classes `Account` and `CreditAccount`, a bank-account
  ledger with an append-only operation history;
* `src/Task1.py` — `sum_distance` (the spec calls it `sum_range`);
* `src/Task2.py` — `trim_and_repeat`.

Modelling choices:

* Python `float` amounts and balances are modelled as exact rationals `ℚ`
  (the code performs only `+`, `-` and order comparisons);
* Python `str` values handled character-wise (`trim_and_repeat`) are
  modelled as `List Char`;
* `datetime.now()` timestamps are realtime and are omitted from the record
  model; no claim mentions them;
* a Python `raise ValueError(msg)` in a constructor is modelled as
  `Except.error msg`; the history dictionaries (a fixed set of keys plus an
  optional `extra` update) are modelled as a structure with `Option` fields.
-/

/-- The `"type"` key of a history record: `'deposit'` or `'withdraw'`. -/
inductive OpType where
  | deposit
  | withdraw
deriving DecidableEq, Repr

/-- The `"status"` key of a history record: `'success'` or `'fail'`. -/
inductive OpStatus where
  | success
  | fail
deriving DecidableEq, Repr

/-- One history record, as built by `Account._add_operation`
(src/Account.py lines 27–49): the five fixed keys (minus the realtime
`datetime`), plus the keys that the optional `extra` dictionary can add
(`reason` on failures; `used_credit` and `available_credit_after` on
CreditAccount successes). -/
structure OperationRecord where
  type : OpType
  amount : ℚ
  balance_after : ℚ
  status : OpStatus
  reason : Option String := none
  used_credit : Option Bool := none
  available_credit_after : Option ℚ := none
deriving DecidableEq, Repr

/-- State of a base `Account` (src/Account.py lines 5–121):
`holder`, `_balance`, `operations_history`. -/
structure Account where
  holder : String
  balance : ℚ
  operations_history : List OperationRecord
deriving DecidableEq, Repr

/-- Embeds `Account.__init__` (src/Account.py lines 14–20): rejects a negative
initial balance, otherwise starts with the given balance and an empty
history. -/
def Account.init (account_holder : String) (balance : ℚ) :
    Except String Account :=
  if balance < 0 then
    Except.error "Начальный баланс не может быть отрицательным"
  else
    Except.ok { holder := account_holder, balance := balance,
                operations_history := [] }

/-- Embeds `Account._add_operation` (src/Account.py lines 27–49): append one
record to the history. -/
def Account.add_operation (a : Account) (r : OperationRecord) : Account :=
  { a with operations_history := a.operations_history ++ [r] }

/-- Embeds `Account.deposit` (src/Account.py lines 51–74). -/
def Account.deposit (a : Account) (amount : ℚ) : Account :=
  if amount ≤ 0 then
    a.add_operation
      { type := OpType.deposit, amount := amount,
        balance_after := a.balance, status := OpStatus.fail,
        reason := some "Amount must be positive" }
  else
    let a' := { a with balance := a.balance + amount }
    a'.add_operation
      { type := OpType.deposit, amount := amount,
        balance_after := a'.balance, status := OpStatus.success }

/-- Embeds `Account.withdraw` (src/Account.py lines 76–110). -/
def Account.withdraw (a : Account) (amount : ℚ) : Account :=
  if amount ≤ 0 then
    a.add_operation
      { type := OpType.withdraw, amount := amount,
        balance_after := a.balance, status := OpStatus.fail,
        reason := some "Amount must be positive" }
  else if a.balance < amount then
    a.add_operation
      { type := OpType.withdraw, amount := amount,
        balance_after := a.balance, status := OpStatus.fail,
        reason := some "Insufficient funds" }
  else
    let a' := { a with balance := a.balance - amount }
    a'.add_operation
      { type := OpType.withdraw, amount := amount,
        balance_after := a'.balance, status := OpStatus.success }

/-- State of a `CreditAccount` (src/Account.py lines 124–230): the base
fields plus the immutable `_credit_limit`. -/
structure CreditAccount where
  holder : String
  balance : ℚ
  credit_limit : ℚ
  operations_history : List OperationRecord
deriving DecidableEq, Repr

/-- Embeds `CreditAccount.__init__` (src/Account.py lines 134–150): rejects a
negative credit limit, then a balance below `-credit_limit`, then
delegates to `Account.__init__` — which itself rejects any negative
balance. -/
def CreditAccount.init (account_holder : String) (balance : ℚ)
    (credit_limit : ℚ) : Except String CreditAccount :=
  if credit_limit < 0 then
    Except.error "Кредитный лимит не может быть отрицательным"
  else if balance < -credit_limit then
    Except.error "Начальный баланс ниже допустимого кредитного лимита"
  else
    match Account.init account_holder balance with
    | Except.error e => Except.error e
    | Except.ok base =>
        Except.ok { holder := base.holder, balance := base.balance,
                    credit_limit := credit_limit,
                    operations_history := base.operations_history }

/-- The inherited `_add_operation`, acting on the credit-account state. -/
def CreditAccount.add_operation (c : CreditAccount) (r : OperationRecord) :
    CreditAccount :=
  { c with operations_history := c.operations_history ++ [r] }

/-- Embeds `CreditAccount.get_available_credit` (src/Account.py lines 152–157):
`credit_limit + balance`. -/
def CreditAccount.get_available_credit (c : CreditAccount) : ℚ :=
  c.credit_limit + c.balance

/-- Embeds `CreditAccount.withdraw` (src/Account.py lines 159–198). -/
def CreditAccount.withdraw (c : CreditAccount) (amount : ℚ) :
    CreditAccount :=
  if amount ≤ 0 then
    c.add_operation
      { type := OpType.withdraw, amount := amount,
        balance_after := c.balance, status := OpStatus.fail,
        reason := some "Amount must be positive" }
  else
    let new_balance := c.balance - amount
    if new_balance < -c.credit_limit then
      c.add_operation
        { type := OpType.withdraw, amount := amount,
          balance_after := c.balance, status := OpStatus.fail,
          reason := some "Credit limit exceeded" }
    else
      let used_credit := decide (new_balance < 0)
      let c' := { c with balance := new_balance }
      c'.add_operation
        { type := OpType.withdraw, amount := amount,
          balance_after := c'.balance, status := OpStatus.success,
          used_credit := some used_credit,
          available_credit_after := some c'.get_available_credit }

/-- Embeds `CreditAccount.deposit` (src/Account.py lines 200–230). -/
def CreditAccount.deposit (c : CreditAccount) (amount : ℚ) :
    CreditAccount :=
  if amount ≤ 0 then
    c.add_operation
      { type := OpType.deposit, amount := amount,
        balance_after := c.balance, status := OpStatus.fail,
        reason := some "Amount must be positive" }
  else
    let before := c.balance
    let c' := { c with balance := c.balance + amount }
    let used_credit := decide (before < 0)
    c'.add_operation
      { type := OpType.deposit, amount := amount,
        balance_after := c'.balance, status := OpStatus.success,
        used_credit := some used_credit,
        available_credit_after := some c'.get_available_credit }

/-- One external call on an account: `deposit(amount)` or
`withdraw(amount)`. -/
inductive Op where
  | deposit (amount : ℚ)
  | withdraw (amount : ℚ)
deriving DecidableEq, Repr

/-- Dispatch one call on a base account. -/
def Account.applyOp (a : Account) : Op → Account
  | Op.deposit amount => a.deposit amount
  | Op.withdraw amount => a.withdraw amount

/-- Run a finite sequence of calls on a base account. -/
def Account.run (a : Account) (ops : List Op) : Account :=
  ops.foldl Account.applyOp a

/-- Dispatch one call on a credit account. -/
def CreditAccount.applyOp (c : CreditAccount) : Op → CreditAccount
  | Op.deposit amount => c.deposit amount
  | Op.withdraw amount => c.withdraw amount

/-- Run a finite sequence of calls on a credit account. -/
def CreditAccount.run (c : CreditAccount) (ops : List Op) : CreditAccount :=
  ops.foldl CreditAccount.applyOp c

/-- Embeds `sum_distance` from src/Task1.py (the spec's `sum_range`): swap the
bounds if `frm > to`, then sum `range(frm, to + 1)`, i.e. the integers
`frm, frm + 1, …, to`. -/
def sum_distance (frm to_ : ℤ) : ℤ :=
  let p := if frm > to_ then (to_, frm) else (frm, to_)
  (List.range (p.2 + 1 - p.1).toNat).foldl
    (fun (total : ℤ) (num : ℕ) => total + (p.1 + (num : ℤ))) 0

/-- Python `list * n` / `str * n` on a character list: `n` concatenated
copies (empty for `n = 0`). -/
def listMulNat (l : List Char) : Nat → List Char
  | 0 => []
  | n + 1 => l ++ listMulNat l n

/-- Embeds `trim_and_repeat` from src/Task2.py, on the character-list model of
Python strings: clamp a negative `offset` to 0, return `""` for
`repetitions <= 0`, else repeat the suffix `s[offset:]`. -/
def trim_and_repeat (s : List Char) (offset : ℤ) (repetitions : ℤ) :
    List Char :=
  let offset := if offset < 0 then 0 else offset
  if repetitions ≤ 0 then []
  else listMulNat (s.drop offset.toNat) repetitions.toNat

/-! ### Branch equations for the four operations -/

lemma account_deposit_nonpos (a : Account) (amount : ℚ) (h : amount ≤ 0) :
    a.deposit amount =
      { a with operations_history := a.operations_history ++
          [{ type := OpType.deposit, amount := amount,
             balance_after := a.balance, status := OpStatus.fail,
             reason := some "Amount must be positive" }] } := by
  unfold Account.deposit
  rw [if_pos h]
  rfl

lemma account_deposit_pos (a : Account) (amount : ℚ) (h : 0 < amount) :
    a.deposit amount =
      { a with balance := a.balance + amount,
               operations_history := a.operations_history ++
          [{ type := OpType.deposit, amount := amount,
             balance_after := a.balance + amount,
             status := OpStatus.success }] } := by
  unfold Account.deposit
  rw [if_neg (not_le.mpr h)]
  rfl

lemma account_withdraw_nonpos (a : Account) (amount : ℚ) (h : amount ≤ 0) :
    a.withdraw amount =
      { a with operations_history := a.operations_history ++
          [{ type := OpType.withdraw, amount := amount,
             balance_after := a.balance, status := OpStatus.fail,
             reason := some "Amount must be positive" }] } := by
  unfold Account.withdraw
  rw [if_pos h]
  rfl

lemma account_withdraw_insufficient (a : Account) (amount : ℚ)
    (h1 : 0 < amount) (h2 : a.balance < amount) :
    a.withdraw amount =
      { a with operations_history := a.operations_history ++
          [{ type := OpType.withdraw, amount := amount,
             balance_after := a.balance, status := OpStatus.fail,
             reason := some "Insufficient funds" }] } := by
  unfold Account.withdraw
  rw [if_neg (not_le.mpr h1), if_pos h2]
  rfl

lemma account_withdraw_ok (a : Account) (amount : ℚ)
    (h1 : 0 < amount) (h2 : amount ≤ a.balance) :
    a.withdraw amount =
      { a with balance := a.balance - amount,
               operations_history := a.operations_history ++
          [{ type := OpType.withdraw, amount := amount,
             balance_after := a.balance - amount,
             status := OpStatus.success }] } := by
  unfold Account.withdraw
  rw [if_neg (not_le.mpr h1), if_neg (not_lt.mpr h2)]
  rfl

lemma credit_deposit_nonpos (c : CreditAccount) (amount : ℚ)
    (h : amount ≤ 0) :
    c.deposit amount =
      { c with operations_history := c.operations_history ++
          [{ type := OpType.deposit, amount := amount,
             balance_after := c.balance, status := OpStatus.fail,
             reason := some "Amount must be positive" }] } := by
  unfold CreditAccount.deposit
  rw [if_pos h]
  rfl

lemma credit_deposit_pos (c : CreditAccount) (amount : ℚ)
    (h : 0 < amount) :
    c.deposit amount =
      { c with balance := c.balance + amount,
               operations_history := c.operations_history ++
          [{ type := OpType.deposit, amount := amount,
             balance_after := c.balance + amount,
             status := OpStatus.success,
             used_credit := some (decide (c.balance < 0)),
             available_credit_after :=
               some (c.credit_limit + (c.balance + amount)) }] } := by
  unfold CreditAccount.deposit
  rw [if_neg (not_le.mpr h)]
  rfl

lemma credit_withdraw_nonpos (c : CreditAccount) (amount : ℚ)
    (h : amount ≤ 0) :
    c.withdraw amount =
      { c with operations_history := c.operations_history ++
          [{ type := OpType.withdraw, amount := amount,
             balance_after := c.balance, status := OpStatus.fail,
             reason := some "Amount must be positive" }] } := by
  unfold CreditAccount.withdraw
  rw [if_pos h]
  rfl

lemma credit_withdraw_exceeded (c : CreditAccount) (amount : ℚ)
    (h1 : 0 < amount) (h2 : c.balance - amount < -c.credit_limit) :
    c.withdraw amount =
      { c with operations_history := c.operations_history ++
          [{ type := OpType.withdraw, amount := amount,
             balance_after := c.balance, status := OpStatus.fail,
             reason := some "Credit limit exceeded" }] } := by
  unfold CreditAccount.withdraw
  rw [if_neg (not_le.mpr h1), if_pos h2]
  rfl

lemma credit_withdraw_ok (c : CreditAccount) (amount : ℚ)
    (h1 : 0 < amount) (h2 : -c.credit_limit ≤ c.balance - amount) :
    c.withdraw amount =
      { c with balance := c.balance - amount,
               operations_history := c.operations_history ++
          [{ type := OpType.withdraw, amount := amount,
             balance_after := c.balance - amount,
             status := OpStatus.success,
             used_credit := some (decide (c.balance - amount < 0)),
             available_credit_after :=
               some (c.credit_limit + (c.balance - amount)) }] } := by
  unfold CreditAccount.withdraw
  rw [if_neg (not_le.mpr h1), if_neg (not_lt.mpr h2)]
  rfl

/-! ### Constructor inversion -/

lemma account_init_inv {h : String} {b : ℚ} {a : Account}
    (hinit : Account.init h b = Except.ok a) :
    0 ≤ b ∧ a = { holder := h, balance := b, operations_history := [] } := by
  unfold Account.init at hinit
  split at hinit
  · cases hinit
  · rename_i hb
    cases hinit
    exact ⟨not_lt.mp hb, rfl⟩

lemma credit_init_inv {h : String} {b L : ℚ} {c : CreditAccount}
    (hinit : CreditAccount.init h b L = Except.ok c) :
    0 ≤ L ∧ 0 ≤ b ∧
      c = { holder := h, balance := b, credit_limit := L,
            operations_history := [] } := by
  unfold CreditAccount.init at hinit
  split at hinit
  · cases hinit
  · rename_i hL
    split at hinit
    · cases hinit
    · cases hA : Account.init h b with
      | error e => rw [hA] at hinit; cases hinit
      | ok base =>
          rw [hA] at hinit
          cases hinit
          obtain ⟨hb, rfl⟩ := account_init_inv hA
          exact ⟨not_lt.mp hL, hb, rfl⟩

/-! ### Step and run lemmas -/

lemma Account.applyOp_balance_nonneg (a : Account) (op : Op)
    (h : 0 ≤ a.balance) : 0 ≤ (a.applyOp op).balance := by
  cases op with
  | deposit amount =>
      rcases le_or_lt amount 0 with hle | hlt
      · simpa [Account.applyOp, account_deposit_nonpos a amount hle] using h
      · simp [Account.applyOp, account_deposit_pos a amount hlt]
        linarith
  | withdraw amount =>
      rcases le_or_lt amount 0 with hle | hlt
      · simpa [Account.applyOp, account_withdraw_nonpos a amount hle] using h
      · rcases lt_or_le a.balance amount with h2 | h2
        · simpa [Account.applyOp,
            account_withdraw_insufficient a amount hlt h2] using h
        · simp [Account.applyOp, account_withdraw_ok a amount hlt h2]
          linarith

lemma Account.run_balance_nonneg (a : Account) (h : 0 ≤ a.balance) :
    ∀ ops : List Op, 0 ≤ (a.run ops).balance := by
  intro ops
  induction ops generalizing a with
  | nil => simpa [Account.run] using h
  | cons op ops ih =>
      rw [Account.run, List.foldl_cons]
      exact ih (a.applyOp op) (a.applyOp_balance_nonneg op h)

lemma CreditAccount.applyOp_credit_limit (c : CreditAccount) (op : Op) :
    (c.applyOp op).credit_limit = c.credit_limit := by
  cases op with
  | deposit amount =>
      rcases le_or_lt amount 0 with hle | hlt
      · simp [CreditAccount.applyOp, credit_deposit_nonpos c amount hle]
      · simp [CreditAccount.applyOp, credit_deposit_pos c amount hlt]
  | withdraw amount =>
      rcases le_or_lt amount 0 with hle | hlt
      · simp [CreditAccount.applyOp, credit_withdraw_nonpos c amount hle]
      · rcases lt_or_le (c.balance - amount) (-c.credit_limit) with h2 | h2
        · simp [CreditAccount.applyOp,
            credit_withdraw_exceeded c amount hlt h2]
        · simp [CreditAccount.applyOp,
            credit_withdraw_ok c amount hlt h2]

lemma CreditAccount.applyOp_balance_ge (c : CreditAccount) (op : Op)
    (h : -c.credit_limit ≤ c.balance) :
    -c.credit_limit ≤ (c.applyOp op).balance := by
  cases op with
  | deposit amount =>
      rcases le_or_lt amount 0 with hle | hlt
      · simpa [CreditAccount.applyOp,
          credit_deposit_nonpos c amount hle] using h
      · simp [CreditAccount.applyOp, credit_deposit_pos c amount hlt]
        linarith
  | withdraw amount =>
      rcases le_or_lt amount 0 with hle | hlt
      · simpa [CreditAccount.applyOp,
          credit_withdraw_nonpos c amount hle] using h
      · rcases lt_or_le (c.balance - amount) (-c.credit_limit) with h2 | h2
        · simpa [CreditAccount.applyOp,
            credit_withdraw_exceeded c amount hlt h2] using h
        · simpa [CreditAccount.applyOp,
            credit_withdraw_ok c amount hlt h2] using h2

lemma CreditAccount.run_credit_limit (c : CreditAccount) (ops : List Op) :
    (c.run ops).credit_limit = c.credit_limit := by
  induction ops generalizing c with
  | nil => rfl
  | cons op ops ih =>
      rw [CreditAccount.run, List.foldl_cons]
      rw [show List.foldl CreditAccount.applyOp (c.applyOp op) ops
            = (c.applyOp op).run ops from rfl]
      rw [ih (c.applyOp op), c.applyOp_credit_limit op]

lemma CreditAccount.run_balance_ge (c : CreditAccount)
    (h : -c.credit_limit ≤ c.balance) :
    ∀ ops : List Op, -c.credit_limit ≤ (c.run ops).balance := by
  intro ops
  induction ops generalizing c with
  | nil => simpa [CreditAccount.run] using h
  | cons op ops ih =>
      rw [CreditAccount.run, List.foldl_cons]
      have h' := c.applyOp_balance_ge op h
      rw [← c.applyOp_credit_limit op] at h' ⊢
      exact ih (c.applyOp op) h'

/-! ### Claim theorems -/

/-- C1: the claim says `CreditAccount` construction succeeds whenever
`credit_limit ≥ 0` and `initial_balance ≥ -credit_limit`, in particular
for `CreditAccount("Bob", -30, 50)`.  The code violates this: its own
credit-limit check accepts the input (`-50 ≤ -30` and `0 ≤ 50`), but the
delegated base `Account.__init__` then rejects any negative balance, so
the constructor raises for exactly the inputs the spec's scenario
requires to succeed. -/
theorem creditAccount_init_rejects_bob :
    CreditAccount.init "Bob" (-30) 50
        = Except.error "Начальный баланс не может быть отрицательным" ∧
    (-50 : ℚ) ≤ -30 ∧ (0 : ℚ) ≤ 50 :=
  ⟨rfl, by decide, by decide⟩

/-- C2: for every successfully constructed base account, `balance ≥ 0`
after every sequence of deposit/withdraw calls; for every successfully
constructed credit account, `balance ≥ -credit_limit` after every
sequence, and equivalently `available_credit = credit_limit + balance`
stays `≥ 0`. -/
theorem balance_invariant_all_runs :
    (∀ (h : String) (b : ℚ) (a : Account),
       Account.init h b = Except.ok a →
       ∀ ops : List Op, 0 ≤ (a.run ops).balance) ∧
    (∀ (h : String) (b L : ℚ) (c : CreditAccount),
       CreditAccount.init h b L = Except.ok c →
       ∀ ops : List Op,
         -c.credit_limit ≤ (c.run ops).balance ∧
         0 ≤ (c.run ops).get_available_credit) := by
  constructor
  · intro h b a hinit ops
    obtain ⟨hb, rfl⟩ := account_init_inv hinit
    exact Account.run_balance_nonneg _ hb ops
  · intro h b L c hinit ops
    obtain ⟨hL, hb, hc⟩ := credit_init_inv hinit
    have hlim : c.credit_limit = L := by rw [hc]
    have hbal : c.balance = b := by rw [hc]
    have hstart : -c.credit_limit ≤ c.balance := by
      rw [hlim, hbal]
      linarith
    have h1 := CreditAccount.run_balance_ge c hstart ops
    have h2 := CreditAccount.run_credit_limit c ops
    refine ⟨h1, ?_⟩
    rw [CreditAccount.get_available_credit, h2]
    linarith

/-- The account state produced by `Account("A", 5)`. -/
def aliceAccount : Account :=
  { holder := "A", balance := 5, operations_history := [] }

/-- The account state produced by `CreditAccount("Bob", 0, 50)`. -/
def bobCredit : CreditAccount :=
  { holder := "Bob", balance := 0, credit_limit := 50,
    operations_history := [] }

theorem balance_invariant_all_runs_witness :
    (0 ≤ (aliceAccount.run [Op.deposit 3, Op.withdraw 2]).balance) ∧
    (-bobCredit.credit_limit ≤ (bobCredit.run [Op.withdraw 40]).balance ∧
     0 ≤ (bobCredit.run [Op.withdraw 40]).get_available_credit) :=
  ⟨balance_invariant_all_runs.1 "A" 5 aliceAccount rfl
      [Op.deposit 3, Op.withdraw 2],
   balance_invariant_all_runs.2 "Bob" 0 50 bobCredit rfl [Op.withdraw 40]⟩

/-- C3: every operational failure — non-positive amount on any
deposit/withdraw, over-withdrawal on the base account, credit-limit
violation on the credit account — raises nothing (the operations are
total), leaves the balance unchanged, and appends exactly one `fail`
record whose `balance_after` is the pre-call balance and whose `reason`
is the matching string. -/
theorem operational_failures_recorded :
    (∀ (a : Account) (amount : ℚ), amount ≤ 0 →
       a.deposit amount =
         { a with operations_history := a.operations_history ++
             [{ type := OpType.deposit, amount := amount,
                balance_after := a.balance, status := OpStatus.fail,
                reason := some "Amount must be positive" }] }) ∧
    (∀ (a : Account) (amount : ℚ), amount ≤ 0 →
       a.withdraw amount =
         { a with operations_history := a.operations_history ++
             [{ type := OpType.withdraw, amount := amount,
                balance_after := a.balance, status := OpStatus.fail,
                reason := some "Amount must be positive" }] }) ∧
    (∀ (a : Account) (amount : ℚ), 0 < amount → a.balance < amount →
       a.withdraw amount =
         { a with operations_history := a.operations_history ++
             [{ type := OpType.withdraw, amount := amount,
                balance_after := a.balance, status := OpStatus.fail,
                reason := some "Insufficient funds" }] }) ∧
    (∀ (c : CreditAccount) (amount : ℚ), amount ≤ 0 →
       c.deposit amount =
         { c with operations_history := c.operations_history ++
             [{ type := OpType.deposit, amount := amount,
                balance_after := c.balance, status := OpStatus.fail,
                reason := some "Amount must be positive" }] }) ∧
    (∀ (c : CreditAccount) (amount : ℚ), amount ≤ 0 →
       c.withdraw amount =
         { c with operations_history := c.operations_history ++
             [{ type := OpType.withdraw, amount := amount,
                balance_after := c.balance, status := OpStatus.fail,
                reason := some "Amount must be positive" }] }) ∧
    (∀ (c : CreditAccount) (amount : ℚ), 0 < amount →
       c.balance - amount < -c.credit_limit →
       c.withdraw amount =
         { c with operations_history := c.operations_history ++
             [{ type := OpType.withdraw, amount := amount,
                balance_after := c.balance, status := OpStatus.fail,
                reason := some "Credit limit exceeded" }] }) :=
  ⟨account_deposit_nonpos, account_withdraw_nonpos,
   account_withdraw_insufficient, credit_deposit_nonpos,
   credit_withdraw_nonpos, credit_withdraw_exceeded⟩

theorem operational_failures_recorded_witness :
    (Account.deposit aliceAccount (-5) =
       { aliceAccount with operations_history :=
           aliceAccount.operations_history ++
             [{ type := OpType.deposit, amount := -5,
                balance_after := aliceAccount.balance,
                status := OpStatus.fail,
                reason := some "Amount must be positive" }] }) ∧
    (CreditAccount.withdraw bobCredit 100 =
       { bobCredit with operations_history :=
           bobCredit.operations_history ++
             [{ type := OpType.withdraw, amount := 100,
                balance_after := bobCredit.balance,
                status := OpStatus.fail,
                reason := some "Credit limit exceeded" }] }) :=
  ⟨operational_failures_recorded.1 aliceAccount (-5) (by decide),
   operational_failures_recorded.2.2.2.2.2 bobCredit 100 (by decide)
     (by simp [bobCredit]; decide)⟩

/-- C4: `CreditAccount.withdraw` with a positive amount within the credit
limit commits `balance - amount` and appends one success record with
`used_credit = (balance - amount < 0)` and
`available_credit_after = credit_limit + (balance - amount)`; when
`balance - amount < -credit_limit` it fails with reason
"Credit limit exceeded" and changes nothing; in particular
`CreditAccount("Bob", 0, 50).withdraw(40)` yields balance `-40`,
`used_credit = true`, `available_credit_after = 10`. -/
theorem creditWithdraw_policy :
    (∀ (c : CreditAccount) (amount : ℚ), 0 < amount →
       -c.credit_limit ≤ c.balance - amount →
       c.withdraw amount =
         { c with balance := c.balance - amount,
                  operations_history := c.operations_history ++
             [{ type := OpType.withdraw, amount := amount,
                balance_after := c.balance - amount,
                status := OpStatus.success,
                used_credit := some (decide (c.balance - amount < 0)),
                available_credit_after :=
                  some (c.credit_limit + (c.balance - amount)) }] }) ∧
    (∀ (c : CreditAccount) (amount : ℚ), 0 < amount →
       c.balance - amount < -c.credit_limit →
       c.withdraw amount =
         { c with operations_history := c.operations_history ++
             [{ type := OpType.withdraw, amount := amount,
                balance_after := c.balance, status := OpStatus.fail,
                reason := some "Credit limit exceeded" }] }) ∧
    (∀ c : CreditAccount, CreditAccount.init "Bob" 0 50 = Except.ok c →
       c.withdraw 40 =
         { holder := "Bob", balance := -40, credit_limit := 50,
           operations_history :=
             [{ type := OpType.withdraw, amount := 40,
                balance_after := -40, status := OpStatus.success,
                used_credit := some true,
                available_credit_after := some 10 }] }) := by
  refine ⟨credit_withdraw_ok, credit_withdraw_exceeded, ?_⟩
  intro c hinit
  obtain ⟨-, -, rfl⟩ := credit_init_inv hinit
  rw [credit_withdraw_ok _ 40 (by norm_num) (by dsimp; norm_num)]
  dsimp
  norm_num

theorem creditWithdraw_policy_witness :
    bobCredit.withdraw 40 =
      { holder := "Bob", balance := -40, credit_limit := 50,
        operations_history :=
          [{ type := OpType.withdraw, amount := 40,
             balance_after := -40, status := OpStatus.success,
             used_credit := some true,
             available_credit_after := some 10 }] } :=
  creditWithdraw_policy.2.2 bobCredit rfl

/-- C5: `CreditAccount.deposit` with a positive amount commits
`balance + amount` and appends one success record whose `used_credit`
flag records whether the balance was negative *before* the deposit and
whose `available_credit_after` is `credit_limit + (balance + amount)`. -/
theorem creditDeposit_policy :
    ∀ (c : CreditAccount) (amount : ℚ), 0 < amount →
      c.deposit amount =
        { c with balance := c.balance + amount,
                 operations_history := c.operations_history ++
            [{ type := OpType.deposit, amount := amount,
               balance_after := c.balance + amount,
               status := OpStatus.success,
               used_credit := some (decide (c.balance < 0)),
               available_credit_after :=
                 some (c.credit_limit + (c.balance + amount)) }] } :=
  credit_deposit_pos

/-- The credit-drawn state reached by the spec's scenario
`CreditAccount("Bob", 0, 50).withdraw(40)`. -/
def bobDrawn : CreditAccount :=
  { holder := "Bob", balance := -40, credit_limit := 50,
    operations_history :=
      [{ type := OpType.withdraw, amount := 40, balance_after := -40,
         status := OpStatus.success, used_credit := some true,
         available_credit_after := some 10 }] }

theorem creditDeposit_policy_witness :
    bobDrawn.deposit 10 =
      { bobDrawn with balance := bobDrawn.balance + 10,
                      operations_history := bobDrawn.operations_history ++
          [{ type := OpType.deposit, amount := 10,
             balance_after := bobDrawn.balance + 10,
             status := OpStatus.success,
             used_credit := some (decide (bobDrawn.balance < 0)),
             available_credit_after :=
               some (bobDrawn.credit_limit + (bobDrawn.balance + 10)) }] } :=
  creditDeposit_policy bobDrawn 10 (by decide)

/-- C6: every single deposit/withdraw call, on either variant, success or
failure, extends the history by exactly one appended record — existing
records are neither removed nor reordered. -/
theorem history_append_exactly_one :
    (∀ (a : Account) (op : Op),
       (a.applyOp op).operations_history.length
           = a.operations_history.length + 1 ∧
       ∃ r, (a.applyOp op).operations_history
           = a.operations_history ++ [r]) ∧
    (∀ (c : CreditAccount) (op : Op),
       (c.applyOp op).operations_history.length
           = c.operations_history.length + 1 ∧
       ∃ r, (c.applyOp op).operations_history
           = c.operations_history ++ [r]) := by
  have key1 : ∀ (a : Account) (op : Op),
      ∃ r, (a.applyOp op).operations_history
          = a.operations_history ++ [r] := by
    intro a op
    cases op with
    | deposit amount =>
        rcases le_or_lt amount 0 with hle | hlt
        · exact ⟨_, by rw [Account.applyOp, account_deposit_nonpos a amount hle]⟩
        · exact ⟨_, by rw [Account.applyOp, account_deposit_pos a amount hlt]⟩
    | withdraw amount =>
        rcases le_or_lt amount 0 with hle | hlt
        · exact ⟨_, by rw [Account.applyOp, account_withdraw_nonpos a amount hle]⟩
        · rcases lt_or_le a.balance amount with h2 | h2
          · exact ⟨_, by
              rw [Account.applyOp, account_withdraw_insufficient a amount hlt h2]⟩
          · exact ⟨_, by rw [Account.applyOp, account_withdraw_ok a amount hlt h2]⟩
  have key2 : ∀ (c : CreditAccount) (op : Op),
      ∃ r, (c.applyOp op).operations_history
          = c.operations_history ++ [r] := by
    intro c op
    cases op with
    | deposit amount =>
        rcases le_or_lt amount 0 with hle | hlt
        · exact ⟨_, by
            rw [CreditAccount.applyOp, credit_deposit_nonpos c amount hle]⟩
        · exact ⟨_, by
            rw [CreditAccount.applyOp, credit_deposit_pos c amount hlt]⟩
    | withdraw amount =>
        rcases le_or_lt amount 0 with hle | hlt
        · exact ⟨_, by
            rw [CreditAccount.applyOp, credit_withdraw_nonpos c amount hle]⟩
        · rcases lt_or_le (c.balance - amount) (-c.credit_limit) with h2 | h2
          · exact ⟨_, by
              rw [CreditAccount.applyOp,
                credit_withdraw_exceeded c amount hlt h2]⟩
          · exact ⟨_, by
              rw [CreditAccount.applyOp,
                credit_withdraw_ok c amount hlt h2]⟩
  refine ⟨fun a op => ⟨?_, key1 a op⟩, fun c op => ⟨?_, key2 c op⟩⟩
  · obtain ⟨r, hr⟩ := key1 a op
    rw [hr]
    simp
  · obtain ⟨r, hr⟩ := key2 c op
    rw [hr]
    simp

/-- C7: for any account state, depositing a positive amount and then
withdrawing the same amount — when that withdrawal is within
funds/credit limits — restores the original balance and appends exactly
two success records. -/
theorem deposit_withdraw_roundtrip :
    (∀ (a : Account) (amount : ℚ), 0 < amount →
       amount ≤ (a.deposit amount).balance →
       ((a.deposit amount).withdraw amount).balance = a.balance ∧
       ∃ r1 r2,
         ((a.deposit amount).withdraw amount).operations_history
             = a.operations_history ++ [r1, r2] ∧
         r1.status = OpStatus.success ∧ r2.status = OpStatus.success) ∧
    (∀ (c : CreditAccount) (amount : ℚ), 0 < amount →
       -c.credit_limit ≤ (c.deposit amount).balance - amount →
       ((c.deposit amount).withdraw amount).balance = c.balance ∧
       ∃ r1 r2,
         ((c.deposit amount).withdraw amount).operations_history
             = c.operations_history ++ [r1, r2] ∧
         r1.status = OpStatus.success ∧ r2.status = OpStatus.success) := by
  constructor
  · intro a amount h1 h2
    rw [account_deposit_pos a amount h1] at h2 ⊢
    rw [account_withdraw_ok _ amount h1 h2]
    constructor
    · dsimp
      ring
    · refine ⟨{ type := OpType.deposit, amount := amount,
                balance_after := a.balance + amount,
                status := OpStatus.success },
              { type := OpType.withdraw, amount := amount,
                balance_after := a.balance + amount - amount,
                status := OpStatus.success }, ?_, rfl, rfl⟩
      dsimp
      simp
  · intro c amount h1 h2
    rw [credit_deposit_pos c amount h1] at h2 ⊢
    rw [credit_withdraw_ok _ amount h1 h2]
    constructor
    · dsimp
      ring
    · refine ⟨{ type := OpType.deposit, amount := amount,
                balance_after := c.balance + amount,
                status := OpStatus.success,
                used_credit := some (decide (c.balance < 0)),
                available_credit_after :=
                  some (c.credit_limit + (c.balance + amount)) },
              { type := OpType.withdraw, amount := amount,
                balance_after := c.balance + amount - amount,
                status := OpStatus.success,
                used_credit := some (decide (c.balance + amount - amount < 0)),
                available_credit_after :=
                  some (c.credit_limit + (c.balance + amount - amount)) },
              ?_, rfl, rfl⟩
      dsimp
      simp

theorem deposit_withdraw_roundtrip_witness :
    (((aliceAccount.deposit 7).withdraw 7).balance = aliceAccount.balance ∧
     ∃ r1 r2,
       ((aliceAccount.deposit 7).withdraw 7).operations_history
           = aliceAccount.operations_history ++ [r1, r2] ∧
       r1.status = OpStatus.success ∧ r2.status = OpStatus.success) ∧
    (((bobDrawn.deposit 7).withdraw 7).balance = bobDrawn.balance ∧
     ∃ r1 r2,
       ((bobDrawn.deposit 7).withdraw 7).operations_history
           = bobDrawn.operations_history ++ [r1, r2] ∧
       r1.status = OpStatus.success ∧ r2.status = OpStatus.success) :=
  ⟨deposit_withdraw_roundtrip.1 aliceAccount 7 (by decide)
      (by rw [account_deposit_pos aliceAccount 7 (by decide)]
          simp [aliceAccount]),
   deposit_withdraw_roundtrip.2 bobDrawn 7 (by decide)
      (by rw [credit_deposit_pos bobDrawn 7 (by decide)]
          simp [bobDrawn]
          decide)⟩

/-! ### Arithmetic lemmas for `sum_distance` -/

lemma foldl_add_range (a : ℤ) : ∀ (n : ℕ) (c : ℤ),
    (List.range n).foldl
      (fun (total : ℤ) (num : ℕ) => total + (a + (num : ℤ))) c
      = c + ∑ i in Finset.range n, (a + (i : ℤ)) := by
  intro n
  induction n with
  | zero => intro c; simp
  | succ k ih =>
      intro c
      rw [List.range_succ, List.foldl_append, ih, List.foldl_cons,
          List.foldl_nil, Finset.sum_range_succ]
      ring

lemma Icc_int_insert_top (a b : ℤ) (h : a ≤ b + 1) :
    Finset.Icc a (b + 1) = insert (b + 1) (Finset.Icc a b) := by
  ext x
  simp only [Finset.mem_Icc, Finset.mem_insert]
  omega

lemma sum_Icc_int (a : ℤ) : ∀ n : ℕ,
    (∑ i in Finset.Icc a (a + (n : ℤ)), i)
      = ∑ i in Finset.range (n + 1), (a + (i : ℤ)) := by
  intro n
  induction n with
  | zero => simp
  | succ k ih =>
      have hcast : a + ((k + 1 : ℕ) : ℤ) = (a + (k : ℤ)) + 1 := by
        push_cast
        ring
      rw [hcast, Icc_int_insert_top a (a + (k : ℤ)) (by omega)]
      rw [Finset.sum_insert (by simp only [Finset.mem_Icc]; omega)]
      rw [Finset.sum_range_succ, ih]
      push_cast
      ring

/-- C8: `sum_distance` (the spec's `sum_range`) returns the sum of all
integers between its two bounds inclusive, whichever bound is larger;
in particular `sum_distance 5 5 = 5`, `sum_distance 3 1 = 6` and
`sum_distance 10 1 = 55`. -/
theorem sum_distance_spec :
    (∀ frm to_ : ℤ, sum_distance frm to_
        = ∑ i in Finset.Icc (min frm to_) (max frm to_), i) ∧
    sum_distance 5 5 = 5 ∧ sum_distance 3 1 = 6 ∧
    sum_distance 10 1 = 55 := by
  refine ⟨?_, by decide, by decide, by decide⟩
  intro frm to_
  unfold sum_distance
  rcases le_or_lt frm to_ with h | h
  · rw [if_neg (not_lt.mpr h)]
    dsimp
    rw [min_eq_left h, max_eq_right h]
    obtain ⟨n, rfl⟩ : ∃ n : ℕ, to_ = frm + (n : ℤ) :=
      ⟨(to_ - frm).toNat, by omega⟩
    have hk : (frm + (n : ℤ) + 1 - frm).toNat = n + 1 := by omega
    rw [hk, foldl_add_range frm (n + 1) 0, sum_Icc_int frm n]
    ring
  · rw [if_pos h]
    dsimp
    rw [min_eq_right (le_of_lt h), max_eq_left (le_of_lt h)]
    obtain ⟨n, rfl⟩ : ∃ n : ℕ, frm = to_ + (n : ℤ) :=
      ⟨(frm - to_).toNat, by omega⟩
    have hk : (to_ + (n : ℤ) + 1 - to_).toNat = n + 1 := by omega
    rw [hk, foldl_add_range to_ (n + 1) 0, sum_Icc_int to_ n]
    ring

/-! ### Lemmas for `trim_and_repeat` -/

lemma listMulNat_eq_join_replicate (l : List Char) :
    ∀ n : ℕ, listMulNat l n = List.flatten (List.replicate n l) := by
  intro n
  induction n with
  | zero => rfl
  | succ k ih => rw [listMulNat, ih, List.replicate_succ, List.flatten_cons]

lemma listMulNat_nil : ∀ n : ℕ, listMulNat [] n = [] := by
  intro n
  induction n with
  | zero => rfl
  | succ k ih => rw [listMulNat, ih, List.nil_append]

/-- C9: `trim_and_repeat` returns `""` when `repetitions ≤ 0`; a negative
`offset` behaves exactly like offset `0`; an `offset` at or beyond the
length of `s` yields `""`; otherwise the result is the suffix
`s[offset:]` concatenated `repetitions` times; in particular
`trim_and_repeat "hello" 2 3 = "llollollo"` and
`trim_and_repeat "hi" (-5) 0 = ""`. -/
theorem trim_and_repeat_spec :
    (∀ (s : List Char) (offset repetitions : ℤ), repetitions ≤ 0 →
       trim_and_repeat s offset repetitions = []) ∧
    (∀ (s : List Char) (offset repetitions : ℤ), offset < 0 →
       trim_and_repeat s offset repetitions
           = trim_and_repeat s 0 repetitions) ∧
    (∀ (s : List Char) (offset repetitions : ℤ),
       (s.length : ℤ) ≤ offset →
       trim_and_repeat s offset repetitions = []) ∧
    (∀ (s : List Char) (offset repetitions : ℤ), 0 ≤ offset →
       0 < repetitions →
       trim_and_repeat s offset repetitions
           = List.flatten (List.replicate repetitions.toNat
               (s.drop offset.toNat))) ∧
    trim_and_repeat "hello".toList 2 3 = "llollollo".toList ∧
    trim_and_repeat "hi".toList (-5) 0 = [] := by
  refine ⟨?_, ?_, ?_, ?_, by decide, by decide⟩
  · intro s offset repetitions h
    unfold trim_and_repeat
    rw [if_pos h]
  · intro s offset repetitions h
    unfold trim_and_repeat
    rw [if_pos h, if_neg (by decide : ¬ (0 : ℤ) < 0)]
  · intro s offset repetitions h
    have hoff : 0 ≤ offset := le_trans (by positivity) h
    unfold trim_and_repeat
    rw [if_neg (not_lt.mpr hoff)]
    rcases le_or_lt repetitions 0 with hr | hr
    · rw [if_pos hr]
    · rw [if_neg (not_le.mpr hr)]
      rw [List.drop_eq_nil_of_le (by omega)]
      exact listMulNat_nil _
  · intro s offset repetitions hoff hrep
    unfold trim_and_repeat
    rw [if_neg (not_lt.mpr hoff), if_neg (not_le.mpr hrep)]
    exact listMulNat_eq_join_replicate _ _

theorem trim_and_repeat_spec_witness :
    trim_and_repeat "hello".toList 2 3
        = List.flatten (List.replicate (3 : ℤ).toNat
            ("hello".toList.drop (2 : ℤ).toNat)) :=
  trim_and_repeat_spec.2.2.2.1 "hello".toList 2 3 (by decide) (by decide)

/-! ### The credit-limit-0 account against the base account (refinement) -/

/-- Stated from the claim's wording, for comparison with the source
operations: how a record of a credit account whose `credit_limit` is 0
corresponds to the base-account record of the same call — identical
`type`, `amount`, `balance_after` and `status`; the base reason
"Insufficient funds" is replaced by "Credit limit exceeded" and every
other reason is kept verbatim; and every credit success record carries
`used_credit = false` plus a present `available_credit_after` field. -/
def creditZeroMatchesBase (cr br : OperationRecord) : Prop :=
  cr.type = br.type ∧
  cr.amount = br.amount ∧
  cr.balance_after = br.balance_after ∧
  cr.status = br.status ∧
  (br.reason = some "Insufficient funds" →
     cr.reason = some "Credit limit exceeded") ∧
  (br.reason ≠ some "Insufficient funds" → cr.reason = br.reason) ∧
  (cr.status = OpStatus.success →
     cr.used_credit = some false ∧
     cr.available_credit_after.isSome = true)

lemma matchesBase_fail_same {cbal abal : ℚ} (hbal : cbal = abal)
    (t : OpType) (amt : ℚ) (rsn : String)
    (hr : rsn ≠ "Insufficient funds") :
    creditZeroMatchesBase
      { type := t, amount := amt, balance_after := cbal,
        status := OpStatus.fail, reason := some rsn }
      { type := t, amount := amt, balance_after := abal,
        status := OpStatus.fail, reason := some rsn } :=
  ⟨rfl, rfl, hbal, rfl, fun h => absurd (Option.some.inj h) hr,
   fun _ => rfl, fun h => nomatch h⟩

lemma matchesBase_limit_vs_funds {cbal abal : ℚ} (hbal : cbal = abal)
    (amt : ℚ) :
    creditZeroMatchesBase
      { type := OpType.withdraw, amount := amt, balance_after := cbal,
        status := OpStatus.fail, reason := some "Credit limit exceeded" }
      { type := OpType.withdraw, amount := amt, balance_after := abal,
        status := OpStatus.fail, reason := some "Insufficient funds" } :=
  ⟨rfl, rfl, hbal, rfl, fun _ => rfl, fun h => absurd rfl h,
   fun h => nomatch h⟩

/-- The simulation invariant between a credit account with
`credit_limit = 0` and a base account: same balance, non-negative, and
pointwise-related histories. -/
def CreditZeroSim (c : CreditAccount) (a : Account) : Prop :=
  c.credit_limit = 0 ∧ c.balance = a.balance ∧ 0 ≤ a.balance ∧
  List.Forall₂ creditZeroMatchesBase
    c.operations_history a.operations_history

lemma creditZeroSim_applyOp {c : CreditAccount} {a : Account} (op : Op)
    (h : CreditZeroSim c a) :
    CreditZeroSim (c.applyOp op) (a.applyOp op) := by
  obtain ⟨hL, hbal, hpos, hhist⟩ := h
  cases op with
  | deposit amount =>
      rcases le_or_lt amount 0 with hle | hlt
      · rw [CreditAccount.applyOp, Account.applyOp,
            credit_deposit_nonpos c amount hle,
            account_deposit_nonpos a amount hle]
        refine ⟨hL, hbal, hpos, ?_⟩
        exact List.rel_append hhist
          (List.Forall₂.cons
            (matchesBase_fail_same hbal OpType.deposit amount
              "Amount must be positive" (by decide))
            List.Forall₂.nil)
      · rw [CreditAccount.applyOp, Account.applyOp,
            credit_deposit_pos c amount hlt,
            account_deposit_pos a amount hlt]
        refine ⟨hL, by dsimp; rw [hbal], by dsimp; linarith, ?_⟩
        refine List.rel_append hhist
          (List.Forall₂.cons ?_ List.Forall₂.nil)
        refine ⟨rfl, rfl, by dsimp; rw [hbal], rfl, ?_, ?_, ?_⟩
        · intro hcon
          exact Option.noConfusion hcon
        · intro _
          rfl
        · intro _
          refine ⟨?_, rfl⟩
          have hnot : ¬ c.balance < 0 := by
            rw [hbal]
            exact not_lt.mpr hpos
          simp [hnot]
  | withdraw amount =>
      rcases le_or_lt amount 0 with hle | hlt
      · rw [CreditAccount.applyOp, Account.applyOp,
            credit_withdraw_nonpos c amount hle,
            account_withdraw_nonpos a amount hle]
        refine ⟨hL, hbal, hpos, ?_⟩
        exact List.rel_append hhist
          (List.Forall₂.cons
            (matchesBase_fail_same hbal OpType.withdraw amount
              "Amount must be positive" (by decide))
            List.Forall₂.nil)
      · rcases lt_or_le a.balance amount with hcase | hcase
        · have hc2 : c.balance - amount < -c.credit_limit := by
            rw [hL, hbal]
            linarith
          rw [CreditAccount.applyOp, Account.applyOp,
              credit_withdraw_exceeded c amount hlt hc2,
              account_withdraw_insufficient a amount hlt hcase]
          refine ⟨hL, hbal, hpos, ?_⟩
          exact List.rel_append hhist
            (List.Forall₂.cons (matchesBase_limit_vs_funds hbal amount)
              List.Forall₂.nil)
        · have hc2 : -c.credit_limit ≤ c.balance - amount := by
            rw [hL, hbal]
            linarith
          rw [CreditAccount.applyOp, Account.applyOp,
              credit_withdraw_ok c amount hlt hc2,
              account_withdraw_ok a amount hlt hcase]
          refine ⟨hL, by dsimp; rw [hbal], by dsimp; linarith, ?_⟩
          refine List.rel_append hhist
            (List.Forall₂.cons ?_ List.Forall₂.nil)
          refine ⟨rfl, rfl, by dsimp; rw [hbal], rfl, ?_, ?_, ?_⟩
          · intro hcon
            exact Option.noConfusion hcon
          · intro _
            rfl
          · intro _
            refine ⟨?_, rfl⟩
            have hnot : ¬ c.balance - amount < 0 := by
              rw [hbal]
              linarith
            simp [hnot]

lemma creditZeroSim_run {c : CreditAccount} {a : Account}
    (h : CreditZeroSim c a) :
    ∀ ops : List Op, CreditZeroSim (c.run ops) (a.run ops) := by
  intro ops
  induction ops generalizing c a with
  | nil => exact h
  | cons op ops ih =>
      rw [CreditAccount.run, Account.run, List.foldl_cons, List.foldl_cons]
      exact ih (creditZeroSim_applyOp op h)

/-- C10: a credit account constructed with `credit_limit = 0` evolves the
same balance as a base account with the same initial balance under every
sequence of calls; the histories correspond record-for-record, with an
over-withdrawal recorded as "Credit limit exceeded" instead of
"Insufficient funds" and every credit success record carrying
`used_credit = false` and an `available_credit_after` field. -/
theorem creditZero_refines_base :
    ∀ (hld : String) (b : ℚ) (a : Account) (c : CreditAccount),
      Account.init hld b = Except.ok a →
      CreditAccount.init hld b 0 = Except.ok c →
      ∀ ops : List Op,
        (c.run ops).balance = (a.run ops).balance ∧
        List.Forall₂ creditZeroMatchesBase
          (c.run ops).operations_history
          (a.run ops).operations_history := by
  intro hld b a c ha hc ops
  obtain ⟨hb, rfl⟩ := account_init_inv ha
  obtain ⟨-, -, rfl⟩ := credit_init_inv hc
  have hsim := creditZeroSim_run
    (c := { holder := hld, balance := b, credit_limit := 0,
            operations_history := [] })
    (a := { holder := hld, balance := b, operations_history := [] })
    ⟨rfl, rfl, hb, List.Forall₂.nil⟩ ops
  exact ⟨hsim.2.1, hsim.2.2.2⟩

/-- The state produced by `Account("Z", 30)`. -/
def zoeAccount : Account :=
  { holder := "Z", balance := 30, operations_history := [] }

/-- The state produced by `CreditAccount("Z", 30, 0)`. -/
def zoeCredit : CreditAccount :=
  { holder := "Z", balance := 30, credit_limit := 0,
    operations_history := [] }

theorem creditZero_refines_base_witness :
    ((zoeCredit.run [Op.withdraw 60, Op.deposit 5]).balance
        = (zoeAccount.run [Op.withdraw 60, Op.deposit 5]).balance) ∧
    List.Forall₂ creditZeroMatchesBase
      (zoeCredit.run [Op.withdraw 60, Op.deposit 5]).operations_history
      (zoeAccount.run [Op.withdraw 60, Op.deposit 5]).operations_history :=
  creditZero_refines_base "Z" 30 zoeAccount zoeCredit rfl rfl
    [Op.withdraw 60, Op.deposit 5]
